import Mathlib

/-!
Verification of the opening-edit pipeline of the Drafted repository.

The development shallowly embeds the Python sources:
- `backend/utils/validate_generation.py` (anti-hallucination validator),
- `backend/utils/surgical_blend.py` (geometry, annotation, blending,
  histogram matching),
- `backend/api/drafted_routes.py` (opening job controller).

Images are modelled as total pixel functions over natural-number
coordinates with RGB channels in 0..255; machine floats of the source are
modelled as exact rationals.  PIL raster primitives (resize, line drawing,
polygon rasterization, Gaussian blur, masked compositing) are external
library calls and appear as explicit collaborator parameters, as does the
external image generator.
-/

set_option maxRecDepth 8000

namespace Drafted

/-- An RGB pixel: (red, green, blue), each channel in 0..255. -/
abbrev Pixel := ℕ × ℕ × ℕ

/-- A raster image: dimensions plus a total pixel function.
Only coordinates with `x < width` and `y < height` are meaningful. -/
structure Img where
  width : ℕ
  height : ℕ
  pix : ℕ → ℕ → Pixel

/-- All in-range channel values of an image are representable bytes
(0..255), as for any image PIL delivers in RGB mode. -/
def Img.Valid (img : Img) : Prop :=
  ∀ x < img.width, ∀ y < img.height,
    (img.pix x y).1 ≤ 255 ∧ (img.pix x y).2.1 ≤ 255 ∧ (img.pix x y).2.2 ≤ 255

/-- The edit bounding box, a dict with keys x1, y1, x2, y2 in the source
(`bbox["x1"]` etc.), in pixel coordinates.  The half-open rectangle
[x1, x2) x [y1, y2) is the region the generator may alter. -/
structure Bbox where
  x1 : ℕ
  y1 : ℕ
  x2 : ℕ
  y2 : ℕ

/-- Row-major enumeration of the pixel coordinates of a w x h region
(the flattened numpy view of the region). -/
def allCoords (w h : ℕ) : List (ℕ × ℕ) :=
  (List.range w).flatMap (fun x => (List.range h).map (fun y => (x, y)))

-- =========================================================================
-- Validator configuration constants (validate_generation.py lines 44-63)
-- =========================================================================

/-- RED_R_MIN = 200 (validate_generation.py line 44). -/
def RED_R_MIN : ℕ := 200

/-- RED_G_MAX = 80 (validate_generation.py line 45). -/
def RED_G_MAX : ℕ := 80

/-- RED_B_MAX = 80 (validate_generation.py line 46). -/
def RED_B_MAX : ℕ := 80

/-- RED_PIXEL_THRESHOLD_PCT = 0.5 (validate_generation.py line 47). -/
def RED_PIXEL_THRESHOLD_PCT : ℚ := 1/2

/-- SIGNIFICANT_CHANGE_THRESHOLD = 50 (validate_generation.py line 53). -/
def SIGNIFICANT_CHANGE_THRESHOLD : ℕ := 50

/-- CONTAMINATION_THRESHOLD_PCT = 0.5 (validate_generation.py line 57). -/
def CONTAMINATION_THRESHOLD_PCT : ℚ := 1/2

/-- OVERSIZED_AREA_THRESHOLD_PCT = 200.0 (validate_generation.py line 63). -/
def OVERSIZED_AREA_THRESHOLD_PCT : ℚ := 200

-- =========================================================================
-- Check 1: red marker residue (validate_generation.py, _check_red_residue)
-- =========================================================================

/-- Pixel classifier of `_check_red_residue`:
`is_red = (r > RED_R_MIN) & (g < RED_G_MAX) & (b < RED_B_MAX)`
(validate_generation.py line 307). -/
def isRedPixel (p : Pixel) : Bool :=
  decide (RED_R_MIN < p.1) && decide (p.2.1 < RED_G_MAX) && decide (p.2.2 < RED_B_MAX)

/-- Clamped crop window of the bbox inside an image of the given size:
`x1 = max(0, int(bbox["x1"]))`, `x2 = min(width, int(bbox["x2"]))` and
analogously for y (validate_generation.py lines 294-297, 351-354).  With
natural-number bbox fields the max with 0 is the identity. -/
def clampBbox (w h : ℕ) (b : Bbox) : ℕ × ℕ × ℕ × ℕ :=
  (max 0 b.x1, max 0 b.y1, min w b.x2, min h b.y2)

/-- Membership in the clamped bbox rectangle (the numpy region
`[y1:y2, x1:x2]`). -/
def inClampedBbox (w h : ℕ) (b : Bbox) (x y : ℕ) : Bool :=
  let c := clampBbox w h b
  decide (c.1 ≤ x) && decide (x < c.2.2.1) && decide (c.2.1 ≤ y) && decide (y < c.2.2.2)

/-- Number of `is_red` pixels in the crop of the candidate to the clamped
bbox (`red_pixels = int(np.sum(is_red))`, validate_generation.py line 310). -/
def redPixelCount (img : Img) (b : Bbox) : ℕ :=
  let c := clampBbox img.width img.height b
  (allCoords (c.2.2.1 - c.1) (c.2.2.2 - c.2.1)).countP
    (fun q => isRedPixel (img.pix (c.1 + q.1) (c.2.1 + q.2)))

/-- Number of pixels of the cropped region (`total_pixels = is_red.size`,
validate_generation.py line 309). -/
def redTotalPixels (img : Img) (b : Bbox) : ℕ :=
  let c := clampBbox img.width img.height b
  (c.2.2.1 - c.1) * (c.2.2.2 - c.2.1)

/-- `red_pct = (red_pixels / total_pixels) * 100 if total_pixels > 0 else 0.0`
(validate_generation.py line 311). -/
def redPct (img : Img) (b : Bbox) : ℚ :=
  if redTotalPixels img b > 0 then
    (redPixelCount img b * 100 : ℚ) / redTotalPixels img b
  else 0

/-- Result record of `_check_red_residue`. -/
structure RedResidueCheck where
  passed : Bool
  red_pct : ℚ
  red_pixels : ℕ
  total_pixels : ℕ

/-- Embedding of `_check_red_residue(output_img, bbox)`
(validate_generation.py lines 272-318): crop the candidate to the clamped
bbox, count `is_red` pixels, and pass iff the red percentage of the crop
is strictly below `RED_PIXEL_THRESHOLD_PCT`
(`"passed": red_pct < RED_PIXEL_THRESHOLD_PCT`, line 314). -/
def _check_red_residue (output_img : Img) (bbox : Bbox) : RedResidueCheck :=
  { passed := decide (redPct output_img bbox < RED_PIXEL_THRESHOLD_PCT)
    red_pct := redPct output_img bbox
    red_pixels := redPixelCount output_img bbox
    total_pixels := redTotalPixels output_img bbox }

-- =========================================================================
-- Check 2: artifact leakage (validate_generation.py, _check_artifact_leakage)
-- =========================================================================

/-- Per-pixel significant change: the maximum absolute per-channel
difference exceeds `SIGNIFICANT_CHANGE_THRESHOLD`
(`max_diff > SIGNIFICANT_CHANGE_THRESHOLD`, validate_generation.py
lines 372-377). -/
def significantChange (p q : Pixel) : Bool :=
  decide (SIGNIFICANT_CHANGE_THRESHOLD <
    max (Nat.dist p.1 q.1) (max (Nat.dist p.2.1 q.2.1) (Nat.dist p.2.2 q.2.2)))

/-- The pixels of a w x h image strictly outside the clamped bbox
(the numpy `outside_mask`, validate_generation.py lines 357-358). -/
def outsidePixels (w h : ℕ) (b : Bbox) : List (ℕ × ℕ) :=
  (allCoords w h).filter (fun p => !inClampedBbox w h b p.1 p.2)

/-- Count of significantly changed pixels outside the clamped bbox
(`changed_pixels`, validate_generation.py lines 380-381). -/
def changedOutsideCount (original_img output_img : Img) (b : Bbox) : ℕ :=
  (outsidePixels original_img.width original_img.height b).countP
    (fun p => significantChange (original_img.pix p.1 p.2) (output_img.pix p.1 p.2))

/-- Result record of `_check_artifact_leakage`. -/
structure ArtifactLeakageCheck where
  passed : Bool
  changed_pixels : ℕ
  total_outside : ℕ
  change_pct : ℚ

/-- Embedding of `_check_artifact_leakage(original_img, output_img, bbox)`
(validate_generation.py lines 321-397): among pixels strictly outside the
clamped bbox, count those that changed significantly; pass iff the changed
percentage is strictly below `CONTAMINATION_THRESHOLD_PCT`
(`"passed": change_pct < CONTAMINATION_THRESHOLD_PCT`, line 389).  When no
pixel lies outside the bbox the check passes with all counts zero (the
early return at lines 362-370). -/
def _check_artifact_leakage (original_img output_img : Img) (bbox : Bbox) :
    ArtifactLeakageCheck :=
  let total_outside := (outsidePixels original_img.width original_img.height bbox).length
  if total_outside = 0 then
    { passed := true, changed_pixels := 0, total_outside := 0, change_pct := 0 }
  else
    let changed_pixels := changedOutsideCount original_img output_img bbox
    let change_pct : ℚ := (changed_pixels * 100 : ℚ) / total_outside
    { passed := decide (change_pct < CONTAMINATION_THRESHOLD_PCT)
      changed_pixels := changed_pixels
      total_outside := total_outside
      change_pct := change_pct }

-- =========================================================================
-- Annotator marker color (surgical_blend.py, annotate_png_for_opening_edit)
-- =========================================================================

/-- The marker color the annotator draws at the opening location:
`BLUE = (0, 0, 255)` (surgical_blend.py line 833); the opening box outline
is drawn in this color at line 837.  The red room boundary was removed
(comment at lines 841-844), so this is the only marker the annotator
leaves on the image sent to the generator. -/
def annotatorMarkerBLUE : Pixel := (0, 0, 255)

-- =========================================================================
-- Threshold characterizations (percentage vs. integer counts)
-- =========================================================================

/-- Cross-multiplied form of a strict half-percent threshold comparison. -/
lemma pct_lt_half_iff (k n : ℕ) (hn : 0 < n) :
    ((k * 100 : ℚ) / n < 1/2) ↔ 200 * k < n := by
  have hnq : (0 : ℚ) < n := by exact_mod_cast hn
  rw [div_lt_iff₀ hnq]
  constructor
  · intro h
    have h2 : ((200 * k : ℕ) : ℚ) < (n : ℚ) := by push_cast; nlinarith
    exact_mod_cast h2
  · intro h
    have h2 : ((200 * k : ℕ) : ℚ) < (n : ℚ) := by exact_mod_cast h
    push_cast at h2
    nlinarith

/-- The red-residue check passes exactly when the crop is empty or the red
pixel count is below half a percent of the crop, in integer form. -/
lemma red_residue_passed_iff (img : Img) (b : Bbox) :
    (_check_red_residue img b).passed = true ↔
      (redTotalPixels img b = 0 ∨ 200 * redPixelCount img b < redTotalPixels img b) := by
  unfold _check_red_residue
  simp only [decide_eq_true_eq]
  unfold redPct RED_PIXEL_THRESHOLD_PCT
  split
  · next h => rw [pct_lt_half_iff _ _ h]; omega
  · next h =>
    have h0 : redTotalPixels img b = 0 := by omega
    norm_num [h0]

/-- The artifact-leakage check passes exactly when there are no outside
pixels or the changed count is below half a percent of them, in integer
form. -/
lemma artifact_leakage_passed_iff (o c : Img) (b : Bbox) :
    (_check_artifact_leakage o c b).passed = true ↔
      ((outsidePixels o.width o.height b).length = 0 ∨
        200 * changedOutsideCount o c b < (outsidePixels o.width o.height b).length) := by
  unfold _check_artifact_leakage
  dsimp only
  split
  · next h => simp [h]
  · next h =>
    simp only [decide_eq_true_eq]
    unfold CONTAMINATION_THRESHOLD_PCT
    rw [pct_lt_half_iff _ _ (Nat.pos_of_ne_zero h)]
    omega

/-- The change percentage reported by the artifact-leakage check, when
some pixels lie outside the bbox. -/
lemma artifact_leakage_pct (o c : Img) (b : Bbox)
    (h : (outsidePixels o.width o.height b).length ≠ 0) :
    (_check_artifact_leakage o c b).change_pct =
      (changedOutsideCount o c b * 100 : ℚ) /
        (outsidePixels o.width o.height b).length := by
  unfold _check_artifact_leakage
  dsimp only
  split
  · next h0 => exact absurd h0 h
  · rfl

-- =========================================================================
-- Concrete images for the validator claims
-- =========================================================================

/-- A 10x10 edit bbox in the upper-left corner of a 20x20 candidate. -/
def c2bbox : Bbox := ⟨0, 0, 10, 10⟩

/-- A 20x20 candidate whose bbox region is filled entirely with the
marker color the annotator draws (BLUE), white elsewhere. -/
def c2candidate : Img :=
  ⟨20, 20, fun x y => if x < 10 && y < 10 then annotatorMarkerBLUE else (255, 255, 255)⟩

/-- Number of bbox pixels of `c2candidate` carrying the annotator's marker
color. -/
def c2markerCount : ℕ :=
  (allCoords 10 10).countP (fun q => decide (c2candidate.pix q.1 q.2 = annotatorMarkerBLUE))

/-- C2: the claim fails on the code.  The annotator draws its marker in
BLUE = (0,0,255) (surgical_blend.py line 833), but Validator check 1
classifies marker pixels as red (r > 200, g < 80, b < 80).  A candidate
whose bbox consists 100% of annotator-marker-colored pixels is accepted by
`_check_red_residue`, although the claim requires any candidate with at
least 1% marker-colored bbox pixels to be rejected. -/
theorem c2_red_check_accepts_full_blue_marker :
    c2markerCount = 100 ∧ redTotalPixels c2candidate c2bbox = 100 ∧
      (_check_red_residue c2candidate c2bbox).passed = true := by
  refine ⟨by decide, by decide, ?_⟩
  rw [red_residue_passed_iff]
  right
  have h1 : redPixelCount c2candidate c2bbox = 0 := by decide
  have h2 : redTotalPixels c2candidate c2bbox = 100 := by decide
  omega

/-- A bbox leaving exactly 200 pixels outside it in a 20x15 image. -/
def c7bbox : Bbox := ⟨0, 5, 20, 10⟩

/-- A plain white 20x15 original. -/
def c7original : Img := ⟨20, 15, fun _ _ => (255, 255, 255)⟩

/-- A candidate identical to `c7original` except for one black pixel at
(0,12), strictly outside `c7bbox`: exactly 0.5% of the 200 outside pixels
changed beyond the delta. -/
def c7candidate : Img :=
  ⟨20, 15, fun x y => if x = 0 && y = 12 then (0, 0, 0) else (255, 255, 255)⟩

/-- C7 counterexample: at a changed-outside fraction of exactly the
configured limit (0.5%), `_check_artifact_leakage` rejects, although the
claim predicts rejection only for fractions strictly greater than the
limit. -/
theorem c7_exact_threshold_rejected :
    (_check_artifact_leakage c7original c7candidate c7bbox).passed = false ∧
      ¬ (CONTAMINATION_THRESHOLD_PCT <
          (_check_artifact_leakage c7original c7candidate c7bbox).change_pct) := by
  have hlen : (outsidePixels c7original.width c7original.height c7bbox).length = 200 := by
    decide
  have hch : changedOutsideCount c7original c7candidate c7bbox = 1 := by decide
  constructor
  · have h := artifact_leakage_passed_iff c7original c7candidate c7bbox
    rw [hlen, hch] at h
    simp only [OfNat.ofNat_ne_zero, false_or] at h
    rw [Bool.eq_false_iff, ne_eq, h]
    omega
  · rw [artifact_leakage_pct _ _ _ (by rw [hlen]; omega), hlen, hch]
    unfold CONTAMINATION_THRESHOLD_PCT
    norm_num

/-- The max-form changed-pixel classifier agrees with the per-channel
existential form. -/
lemma significantChange_eq_or (p q : Pixel) :
    significantChange p q =
      decide (SIGNIFICANT_CHANGE_THRESHOLD < Nat.dist p.1 q.1 ∨
        SIGNIFICANT_CHANGE_THRESHOLD < Nat.dist p.2.1 q.2.1 ∨
        SIGNIFICANT_CHANGE_THRESHOLD < Nat.dist p.2.2 q.2.2) := by
  unfold significantChange
  apply decide_eq_decide.mpr
  rw [lt_max_iff, lt_max_iff]

/-- C7 (amended): Validator check 2 rejects a candidate exactly when, among
pixels strictly outside the clamped bbox, those whose absolute difference
from the original exceeds the fixed delta (50/255) on some channel number
at least 0.5% of all outside-bbox pixels (the boundary case is rejected,
not accepted); a candidate whose only differences from the original lie
inside the bbox is accepted. -/
theorem c7_outside_contamination_characterization (o c : Img) (b : Bbox) :
    ((_check_artifact_leakage o c b).passed = false ↔
      ((outsidePixels o.width o.height b).length ≠ 0 ∧
        (outsidePixels o.width o.height b).length ≤
          200 * ((outsidePixels o.width o.height b).countP (fun p =>
            decide (SIGNIFICANT_CHANGE_THRESHOLD <
                Nat.dist (o.pix p.1 p.2).1 (c.pix p.1 p.2).1 ∨
              SIGNIFICANT_CHANGE_THRESHOLD <
                Nat.dist (o.pix p.1 p.2).2.1 (c.pix p.1 p.2).2.1 ∨
              SIGNIFICANT_CHANGE_THRESHOLD <
                Nat.dist (o.pix p.1 p.2).2.2 (c.pix p.1 p.2).2.2))))) ∧
    ((∀ p ∈ outsidePixels o.width o.height b, c.pix p.1 p.2 = o.pix p.1 p.2) →
      (_check_artifact_leakage o c b).passed = true) := by
  have hcnt : ((outsidePixels o.width o.height b).countP (fun p =>
      decide (SIGNIFICANT_CHANGE_THRESHOLD <
          Nat.dist (o.pix p.1 p.2).1 (c.pix p.1 p.2).1 ∨
        SIGNIFICANT_CHANGE_THRESHOLD <
          Nat.dist (o.pix p.1 p.2).2.1 (c.pix p.1 p.2).2.1 ∨
        SIGNIFICANT_CHANGE_THRESHOLD <
          Nat.dist (o.pix p.1 p.2).2.2 (c.pix p.1 p.2).2.2))) =
      changedOutsideCount o c b := by
    unfold changedOutsideCount
    apply List.countP_congr
    intro p _
    rw [significantChange_eq_or]
  rw [hcnt]
  constructor
  · rw [Bool.eq_false_iff, ne_eq, artifact_leakage_passed_iff]
    omega
  · intro hsame
    have hzero : changedOutsideCount o c b = 0 := by
      unfold changedOutsideCount
      rw [List.countP_eq_zero]
      intro p hp
      rw [hsame p hp]
      simp [significantChange]
    rw [artifact_leakage_passed_iff, hzero]
    omega

/-- A plain gray 4x4 image. -/
def c7small : Img := ⟨4, 4, fun _ _ => (128, 128, 128)⟩

/-- A central bbox in a 4x4 image. -/
def c7smallBbox : Bbox := ⟨1, 1, 3, 3⟩

/-- Witness for the amended C7 theorem: a candidate identical to the
original outside the bbox is accepted. -/
theorem c7_outside_contamination_witness :
    (_check_artifact_leakage c7small c7small c7smallBbox).passed = true :=
  (c7_outside_contamination_characterization c7small c7small c7smallBbox).2
    (by decide)

-- =========================================================================
-- Exact bbox compositing (spec 4.4, `bboxComposite`)
-- =========================================================================

/-- Crop of an image to the window [x1,x2) x [y1,y2), as `Image.crop`. -/
def Img.crop (img : Img) (x1 y1 x2 y2 : ℕ) : Img :=
  ⟨x2 - x1, y2 - y1, fun x y => img.pix (x1 + x) (y1 + y)⟩

/-- Paste a region onto a copy of a base image at offset (ox, oy), leaving
every pixel outside the pasted window untouched, as `Image.paste`. -/
def Img.paste (base region : Img) (ox oy : ℕ) : Img :=
  ⟨base.width, base.height, fun x y =>
    if ox ≤ x ∧ x < ox + region.width ∧ oy ≤ y ∧ y < oy + region.height then
      region.pix (x - ox) (y - oy)
    else base.pix x y⟩

/-- Modelled from the spec: `composite_only_bbox` is imported from
`utils.surgical_blend` by drafted_routes.py (line 1181) and called at line
1184, but its definition is absent from the available sources.  Spec 4.4
describes `bboxComposite(base, overlay, bbox)` as an exact replace: crop
the overlay to the bbox (clamped to the image as everywhere else in this
code base) and copy it verbatim onto a copy of the base, leaving every
pixel outside the bbox byte-identical to the base. -/
def composite_only_bbox (original_png gemini_output_png : Img) (bbox : Bbox) : Img :=
  let c := clampBbox original_png.width original_png.height bbox
  Img.paste original_png (Img.crop gemini_output_png c.1 c.2.1 c.2.2.1 c.2.2.2) c.1 c.2.1

/-- Propositional form of clamped-bbox membership. -/
lemma inClampedBbox_iff (w h : ℕ) (b : Bbox) (x y : ℕ) :
    inClampedBbox w h b x y = true ↔
      max 0 b.x1 ≤ x ∧ x < min w b.x2 ∧ max 0 b.y1 ≤ y ∧ y < min h b.y2 := by
  unfold inClampedBbox clampBbox
  simp only [Bool.and_eq_true, decide_eq_true_eq]
  tauto

/-- C1: `composite_only_bbox` (the default post-validation compositing
path) keeps the base dimensions, copies overlay pixels verbatim at every
pixel inside the bbox, and is byte-identical to the base at every pixel
outside the bbox, for any overlay. -/
theorem c1_composite_only_bbox_exact (base overlay : Img) (bbox : Bbox) (x y : ℕ) :
    (composite_only_bbox base overlay bbox).width = base.width ∧
    (composite_only_bbox base overlay bbox).height = base.height ∧
    (inClampedBbox base.width base.height bbox x y = true →
      (composite_only_bbox base overlay bbox).pix x y = overlay.pix x y) ∧
    (inClampedBbox base.width base.height bbox x y = false →
      (composite_only_bbox base overlay bbox).pix x y = base.pix x y) := by
  refine ⟨rfl, rfl, ?_, ?_⟩
  · intro h
    rw [inClampedBbox_iff] at h
    unfold composite_only_bbox Img.paste Img.crop clampBbox
    dsimp only
    rw [if_pos (by omega)]
    congr 1 <;> omega
  · intro h
    rw [Bool.eq_false_iff, ne_eq, inClampedBbox_iff] at h
    unfold composite_only_bbox Img.paste Img.crop clampBbox
    dsimp only
    rw [if_neg (by omega)]

/-- An 8x8 solid base image. -/
def c1base : Img := ⟨8, 8, fun _ _ => (10, 20, 30)⟩

/-- An 8x8 solid overlay image. -/
def c1overlay : Img := ⟨8, 8, fun _ _ => (200, 100, 50)⟩

/-- A central bbox in an 8x8 image. -/
def c1bbox : Bbox := ⟨2, 2, 6, 6⟩

/-- Witness for C1: pixel (3,3) inside the bbox is taken from the overlay,
pixel (0,7) outside it from the base. -/
theorem c1_composite_only_bbox_witness :
    (composite_only_bbox c1base c1overlay c1bbox).pix 3 3 = c1overlay.pix 3 3 ∧
    (composite_only_bbox c1base c1overlay c1bbox).pix 0 7 = c1base.pix 0 7 :=
  ⟨(c1_composite_only_bbox_exact c1base c1overlay c1bbox 3 3).2.2.1 (by decide),
   (c1_composite_only_bbox_exact c1base c1overlay c1bbox 0 7).2.2.2 (by decide)⟩

-- =========================================================================
-- Histogram matching (surgical_blend.py, histogram_match, lines 566-628)
-- =========================================================================

/-- Number of channel values at most s: the cumulative histogram
`np.cumsum(np.histogram(channel, bins=256, range=(0,256))[0])[s]` for
byte-valued channels (surgical_blend.py lines 600-607). -/
def cumCount (l : List ℕ) (s : ℕ) : ℕ := l.countP (fun v => decide (v ≤ s))

/-- Normalized cumulative distribution `cdf /= cdf[-1]`
(surgical_blend.py lines 604-608). -/
def cdf (l : List ℕ) (s : ℕ) : ℚ := (cumCount l s : ℚ) / l.length

/-- The inner while loop of the lookup-table construction:
`while ref_idx < 255 and ref_cdf[ref_idx] < src_cdf[src_idx]: ref_idx += 1`
(surgical_blend.py line 614). -/
def advanceIdx (c : ℕ → ℚ) (q : ℚ) (r : ℕ) : ℕ :=
  if r < 255 ∧ c r < q then advanceIdx c q (r + 1) else r
termination_by 255 - r
decreasing_by omega

/-- The lookup table `lookup[src_idx] = ref_idx` built over source
intensities 0..s, with `ref_idx` persisting across iterations
(surgical_blend.py lines 611-616). -/
def lutAt (refC srcC : ℕ → ℚ) : ℕ → ℕ
  | 0 => advanceIdx refC (srcC 0) 0
  | s + 1 => advanceIdx refC (srcC (s + 1)) (lutAt refC srcC s)

/-- The flattened channel values of an image
(`src_arr[:, :, channel].flatten()`). -/
def channelValues (img : Img) (ch : Pixel → ℕ) : List ℕ :=
  (allCoords img.width img.height).map (fun p => ch (img.pix p.1 p.2))

/-- Embedding of `histogram_match(source_image, reference_image)`
(surgical_blend.py lines 566-628): per channel, build the 256-entry
lookup table mapping each source intensity to the reference intensity
with nearest cdf at least the source cdf, then map every pixel of the
source through the per-channel tables. -/
def histogram_match (source reference : Img) : Img :=
  ⟨source.width, source.height, fun x y =>
    (lutAt (cdf (channelValues reference (fun p => p.1)))
        (cdf (channelValues source (fun p => p.1))) (source.pix x y).1,
      lutAt (cdf (channelValues reference (fun p => p.2.1)))
        (cdf (channelValues source (fun p => p.2.1))) (source.pix x y).2.1,
      lutAt (cdf (channelValues reference (fun p => p.2.2)))
        (cdf (channelValues source (fun p => p.2.2))) (source.pix x y).2.2)⟩

/-- Splitting the cumulative count at the next intensity. -/
lemma cumCount_succ (l : List ℕ) (s : ℕ) :
    cumCount l (s + 1) = cumCount l s + l.count (s + 1) := by
  induction l with
  | nil => rfl
  | cons a tl ih =>
    unfold cumCount at ih ⊢
    rw [List.count_cons]
    by_cases h1 : a ≤ s
    · rw [List.countP_cons_of_pos _ _ (by simpa using Nat.le_succ_of_le h1),
        List.countP_cons_of_pos _ _ (by simpa using h1)]
      have : ¬ (a = s + 1) := by omega
      simp [ih, this]
      omega
    · by_cases h2 : a = s + 1
      · rw [List.countP_cons_of_pos _ _ (by simp [h2]),
          List.countP_cons_of_neg _ _ (by simpa using h1)]
        simp [ih, h2]
        omega
      · rw [List.countP_cons_of_neg _ _ (by simp; omega),
          List.countP_cons_of_neg _ _ (by simpa using h1)]
        simp [ih, h2]

/-- The cumulative count is monotone. -/
lemma cumCount_mono (l : List ℕ) {s t : ℕ} (h : s ≤ t) :
    cumCount l s ≤ cumCount l t := by
  apply List.countP_mono_left
  intro v _ hv
  simp only [decide_eq_true_eq] at hv ⊢
  omega

/-- The normalized cdf is monotone. -/
lemma cdf_mono (l : List ℕ) {s t : ℕ} (h : s ≤ t) : cdf l s ≤ cdf l t := by
  unfold cdf
  rcases Nat.eq_zero_or_pos l.length with h0 | h0
  · simp [h0]
  · have hq : (0 : ℚ) < l.length := by exact_mod_cast h0
    exact (div_le_div_iff_of_pos_right hq).mpr (by exact_mod_cast cumCount_mono l h)

/-- The cdf rises strictly at any intensity present in the list. -/
lemma cdf_strict (l : List ℕ) {s : ℕ} (hmem : (s + 1) ∈ l) :
    cdf l s < cdf l (s + 1) := by
  have hlen : 0 < l.length := List.length_pos.mpr (List.ne_nil_of_mem hmem)
  have hcount : 0 < l.count (s + 1) := List.count_pos_iff.mpr hmem
  have hlt : cumCount l s < cumCount l (s + 1) := by
    rw [cumCount_succ]; omega
  unfold cdf
  exact div_lt_div_of_pos_right (by exact_mod_cast hlt) (by exact_mod_cast hlen)

/-- The advancing loop stops immediately at an index whose cdf already
reaches the query, or at index 255. -/
lemma advanceIdx_stop_at (c : ℕ → ℚ) (q : ℚ) (t : ℕ)
    (hstop : q ≤ c t ∨ t = 255) : advanceIdx c q t = t := by
  rw [advanceIdx]
  rcases hstop with h | h
  · rw [if_neg]
    rintro ⟨_, hlt2⟩
    exact absurd hlt2 (not_lt.mpr h)
  · rw [if_neg]
    rintro ⟨hlt1, _⟩
    omega

/-- If every index from r up to a target t has cdf strictly below the
query, the target's cdf reaches it (or the target is 255), then the loop
lands exactly on the target. -/
lemma advanceIdx_reach (c : ℕ → ℚ) (q : ℚ) (t : ℕ) (ht : t ≤ 255)
    (hstop : q ≤ c t ∨ t = 255) :
    ∀ d r, t - r ≤ d → r ≤ t → (∀ k, r ≤ k → k < t → c k < q) →
      advanceIdx c q r = t := by
  intro d
  induction d with
  | zero =>
    intro r hd hrt _
    have heq : r = t := by omega
    subst heq
    exact advanceIdx_stop_at c q r hstop
  | succ n ih =>
    intro r hd hrt hlt
    by_cases hr : r = t
    · subst hr
      exact advanceIdx_stop_at c q r hstop
    · have hrt' : r < t := by omega
      rw [advanceIdx, if_pos ⟨by omega, hlt r le_rfl hrt'⟩]
      exact ih (r + 1) (by omega) (by omega) (fun k hk1 hk2 => hlt k (by omega) hk2)

/-- For a monotone cdf whose value at t reaches the query, the loop never
advances past t. -/
lemma advanceIdx_le (c : ℕ → ℚ) (q : ℚ) (t : ℕ)
    (hmono : ∀ a b : ℕ, a ≤ b → c a ≤ c b) (hq : q ≤ c t) :
    ∀ d r, t - r ≤ d → r ≤ t → advanceIdx c q r ≤ t := by
  intro d
  induction d with
  | zero =>
    intro r hd hrt
    have heq : r = t := by omega
    subst heq
    rw [advanceIdx_stop_at c q r (Or.inl hq)]
  | succ n ih =>
    intro r hd hrt
    rw [advanceIdx]
    split
    · next h =>
      have hr : r < t := by
        rcases Nat.lt_or_ge r t with h' | h'
        · exact h'
        · exact absurd h.2 (not_lt.mpr (le_trans hq (hmono t r h')))
      exact ih (r + 1) (by omega) (by omega)
    · exact hrt

/-- The self-lookup table never advances past the probed intensity. -/
lemma lutAt_self_le (l : List ℕ) : ∀ s, s ≤ 255 → lutAt (cdf l) (cdf l) s ≤ s := by
  intro s
  induction s with
  | zero =>
    intro _
    unfold lutAt
    rw [advanceIdx_stop_at _ _ _ (Or.inl le_rfl)]
  | succ n ih =>
    intro hs
    unfold lutAt
    exact advanceIdx_le (cdf l) (cdf l (n + 1)) (n + 1)
      (fun a b hab => cdf_mono l hab) le_rfl 256 (lutAt (cdf l) (cdf l) n)
      (by omega) (le_trans (ih (by omega)) (by omega))

/-- Matching a channel against itself maps every present intensity to
itself. -/
lemma lutAt_self_id (l : List ℕ) (hbound : ∀ v ∈ l, v ≤ 255) :
    ∀ v ∈ l, lutAt (cdf l) (cdf l) v = v := by
  intro v hv
  match v with
  | 0 =>
    unfold lutAt
    exact advanceIdx_stop_at _ _ _ (Or.inl le_rfl)
  | s + 1 =>
    have hv255 : s + 1 ≤ 255 := hbound _ hv
    unfold lutAt
    apply advanceIdx_reach (cdf l) (cdf l (s + 1)) (s + 1) hv255 (Or.inl le_rfl) 256
    · omega
    · exact le_trans (lutAt_self_le l s (by omega)) (by omega)
    · intro k hk1 hk2
      exact lt_of_le_of_lt (cdf_mono l (by omega : k ≤ s)) (cdf_strict l hv)

/-- Coordinate membership in the row-major enumeration. -/
lemma mem_allCoords (w h : ℕ) (p : ℕ × ℕ) :
    p ∈ allCoords w h ↔ p.1 < w ∧ p.2 < h := by
  unfold allCoords
  simp only [List.mem_flatMap, List.mem_map, List.mem_range]
  constructor
  · rintro ⟨x, hx, y, hy, rfl⟩
    exact ⟨hx, hy⟩
  · rintro ⟨h1, h2⟩
    exact ⟨p.1, h1, p.2, h2, rfl⟩

/-- C9: `histogramMatch(X, X)` returns an image pixel-identical to X:
every channel value present in X maps back to itself through the
per-channel nearest-at-least-cdf lookup table. -/
theorem c9_histogram_match_self (X : Img) (hX : X.Valid)
    (x y : ℕ) (hx : x < X.width) (hy : y < X.height) :
    (histogram_match X X).pix x y = X.pix x y := by
  have hmemC : (x, y) ∈ allCoords X.width X.height := (mem_allCoords _ _ _).mpr ⟨hx, hy⟩
  have hch : ∀ ch : Pixel → ℕ, (∀ q : Pixel, ch q ≤ 255 ∨ True) →
      ch (X.pix x y) ∈ channelValues X ch := by
    intro ch _
    exact List.mem_map_of_mem _ hmemC
  have hb := hX x hx y hy
  unfold histogram_match
  dsimp only
  have h1 := lutAt_self_id (channelValues X (fun p => p.1)) ?_ _ (hch _ (fun _ => Or.inr trivial))
  have h2 := lutAt_self_id (channelValues X (fun p => p.2.1)) ?_ _ (hch _ (fun _ => Or.inr trivial))
  have h3 := lutAt_self_id (channelValues X (fun p => p.2.2)) ?_ _ (hch _ (fun _ => Or.inr trivial))
  · rw [h1, h2, h3]
  all_goals
    intro v hvm
    rw [channelValues, List.mem_map] at hvm
    obtain ⟨p, hp, rfl⟩ := hvm
    rw [mem_allCoords] at hp
    have := hX p.1 hp.1 p.2 hp.2
    omega

/-- A small 2x2 test image with distinct channel values. -/
def c9image : Img :=
  ⟨2, 2, fun x y => if x = 0 && y = 0 then (3, 5, 7) else (9, 11, 13)⟩

/-- Witness for C9: self-matching the concrete 2x2 image leaves pixel
(0,1) unchanged. -/
theorem c9_histogram_match_self_witness :
    c9image.Valid ∧ (histogram_match c9image c9image).pix 0 1 = c9image.pix 0 1 :=
  ⟨by unfold Img.Valid; decide,
    c9_histogram_match_self c9image (by unfold Img.Valid; decide) 0 1
      (by decide) (by decide)⟩

-- =========================================================================
-- Coordinate mapping and the rectangular blend region
-- (surgical_blend.py, _calculate_blend_region_from_wall and its caller)
-- =========================================================================

/-- Python `int()` applied to a float: truncation toward zero. -/
def pyInt (q : ℚ) : ℤ := if q < 0 then ⌈q⌉ else ⌊q⌋

/-- The parsed SVG viewBox (x, y, width, height). -/
structure ViewBox where
  x : ℚ
  y : ℚ
  width : ℚ
  height : ℚ

/-- Wall segment endpoints in SVG (vector) space, the `wall_coords` dict. -/
structure WallCoords where
  start_x : ℚ
  start_y : ℚ
  end_x : ℚ
  end_y : ℚ

/-- Embedding of
`_calculate_blend_region_from_wall(wall_coords, opening, viewbox, png_width, png_height, padding_px)`
(surgical_blend.py lines 381-455): map the opening center on the wall to
PNG pixels, orient the region along the wall, and floor the region size at
`int(padding_px * 3)`.  Returns (center_x, center_y, region_width,
region_height). -/
def _calculate_blend_region_from_wall (wall : WallCoords)
    (position_on_wall width_inches : ℚ) (viewbox : ViewBox)
    (png_width png_height : ℕ) (padding_px : ℕ) : ℤ × ℤ × ℤ × ℤ :=
  let svg_center_x := wall.start_x + (wall.end_x - wall.start_x) * position_on_wall
  let svg_center_y := wall.start_y + (wall.end_y - wall.start_y) * position_on_wall
  let scale_x : ℚ := png_width / viewbox.width
  let scale_y : ℚ := png_height / viewbox.height
  let png_center_x := pyInt ((svg_center_x - viewbox.x) * scale_x)
  let png_center_y := pyInt ((svg_center_y - viewbox.y) * scale_y)
  let opening_svg_width := width_inches / 2
  let wall_dx := wall.end_x - wall.start_x
  let wall_dy := wall.end_y - wall.start_y
  let rdims : ℤ × ℤ :=
    if |wall_dx| > |wall_dy| then
      (pyInt (opening_svg_width * scale_x + (padding_px : ℚ) * 2),
        pyInt ((padding_px : ℚ) * 4))
    else
      (pyInt ((padding_px : ℚ) * 4),
        pyInt (opening_svg_width * scale_y + (padding_px : ℚ) * 2))
  let region_width := max rdims.1 (pyInt ((padding_px : ℚ) * 3))
  let region_height := max rdims.2 (pyInt ((padding_px : ℚ) * 3))
  (png_center_x, png_center_y, region_width, region_height)

/-- The clamped rectangle the caller builds from the region
(surgical_blend.py lines 319-322):
`x1 = max(0, center_x - region_width // 2)`,
`x2 = min(width, center_x + region_width // 2)`, analogously for y. -/
def blendRegionRect (cx cy rw rh : ℤ) (width height : ℕ) : ℤ × ℤ × ℤ × ℤ :=
  (max 0 (cx - Int.fdiv rw 2), max 0 (cy - Int.fdiv rh 2),
    min (width : ℤ) (cx + Int.fdiv rw 2), min (height : ℤ) (cy + Int.fdiv rh 2))

/-- A wall hugging the left edge of the viewBox, opening at its start. -/
def c6wall : WallCoords := ⟨0, 0, 10, 0⟩

/-- The standard 100x100 viewBox at the origin. -/
def c6vb : ViewBox := ⟨0, 0, 100, 100⟩

/-- The region computed for an opening at the very corner of a 400x400
image (position 0 on `c6wall`, 36 inches wide, default padding 50). -/
def c6region : ℤ × ℤ × ℤ × ℤ :=
  _calculate_blend_region_from_wall c6wall 0 36 c6vb 400 400 50

/-- C6 counterexample: for the corner opening the clamped blend rectangle
is 86 pixels wide (and 100 high), strictly below the minimum size floor
`int(padding_px * 3) = 150` that held before clamping, falsifying the
claim that the computed bbox always has width and height at least the
floor. -/
theorem c6_clamped_region_below_floor :
    c6region = (0, 0, 172, 200) ∧
      blendRegionRect 0 0 172 200 400 400 = (0, 0, 86, 100) ∧
      ¬ ((86 : ℤ) - 0 ≥ 50 * 3 ∧ (100 : ℤ) - 0 ≥ 50 * 3) := by
  refine ⟨?_, by decide, by decide⟩
  unfold c6region _calculate_blend_region_from_wall c6wall c6vb pyInt
  norm_num

/-- Truncation of a rational between 0 and a natural bound stays between
them. -/
lemma pyInt_nonneg_le {q : ℚ} {W : ℕ} (h0 : 0 ≤ q) (hW : q ≤ W) :
    0 ≤ pyInt q ∧ pyInt q ≤ W := by
  unfold pyInt
  rw [if_neg (not_lt.mpr h0)]
  refine ⟨Int.floor_nonneg.mpr h0, ?_⟩
  calc ⌊q⌋ ≤ ⌊(W : ℚ)⌋ := Int.floor_le_floor hW
    _ = W := Int.floor_natCast W

/-- Truncation of a product of naturals is exact. -/
lemma pyInt_nat_mul (p k : ℕ) : pyInt ((p : ℚ) * k) = ((p * k : ℕ) : ℤ) := by
  unfold pyInt
  rw [if_neg (not_lt.mpr (by positivity)),
    show ((p : ℚ) * k) = ((p * k : ℕ) : ℚ) by push_cast; ring, Int.floor_natCast]

/-- A point at a fractional position along a segment with both endpoints in
an interval stays in the interval. -/
lemma convex_between {lo hi a b t : ℚ} (ha1 : lo ≤ a) (ha2 : a ≤ hi)
    (hb1 : lo ≤ b) (hb2 : b ≤ hi) (ht0 : 0 ≤ t) (ht1 : t ≤ 1) :
    lo ≤ a + (b - a) * t ∧ a + (b - a) * t ≤ hi := by
  constructor <;> nlinarith

/-- Mapping a vector coordinate inside the viewBox extent through the
scale factor `W / extent` lands in [0, W]. -/
lemma mapped_center_bounds {lo e c : ℚ} {W : ℕ} (he : 0 < e)
    (h1 : lo ≤ c) (h2 : c ≤ lo + e) :
    0 ≤ pyInt ((c - lo) * ((W : ℚ) / e)) ∧ pyInt ((c - lo) * ((W : ℚ) / e)) ≤ W := by
  apply pyInt_nonneg_le
  · have hs : (0 : ℚ) ≤ (W : ℚ) / e := by positivity
    exact mul_nonneg (by linarith) hs
  · have hle : c - lo ≤ e := by linarith
    have hs : (0 : ℚ) ≤ (W : ℚ) / e := by positivity
    calc (c - lo) * ((W : ℚ) / e) ≤ e * ((W : ℚ) / e) :=
          mul_le_mul_of_nonneg_right hle hs
      _ = W := by rw [mul_comm, div_mul_cancel₀ _ (ne_of_gt he)]

/-- C6 (amended): for any valid wall geometry (endpoints inside the
viewBox, fraction in [0,1], positive viewBox extent), the region computed
by `_calculate_blend_region_from_wall` honors the minimum size floor
`padding_px * 3` BEFORE clamping, and the clamped rectangle the caller
builds from it lies fully inside the image bounds; the clamped rectangle
itself can fall below the floor at image borders. -/
theorem c6_region_floor_and_clamped_bounds
    (wall : WallCoords) (pos wi : ℚ) (vb : ViewBox) (W H padding : ℕ)
    (cx cy rw rh : ℤ)
    (hvw : 0 < vb.width) (hvh : 0 < vb.height)
    (hsx1 : vb.x ≤ wall.start_x) (hsx2 : wall.start_x ≤ vb.x + vb.width)
    (hex1 : vb.x ≤ wall.end_x) (hex2 : wall.end_x ≤ vb.x + vb.width)
    (hsy1 : vb.y ≤ wall.start_y) (hsy2 : wall.start_y ≤ vb.y + vb.height)
    (hey1 : vb.y ≤ wall.end_y) (hey2 : wall.end_y ≤ vb.y + vb.height)
    (hp0 : 0 ≤ pos) (hp1 : pos ≤ 1)
    (heq : _calculate_blend_region_from_wall wall pos wi vb W H padding = (cx, cy, rw, rh)) :
    ((padding : ℤ) * 3 ≤ rw ∧ (padding : ℤ) * 3 ≤ rh) ∧
      (0 ≤ (blendRegionRect cx cy rw rh W H).1 ∧
        (blendRegionRect cx cy rw rh W H).1 ≤ (blendRegionRect cx cy rw rh W H).2.2.1 ∧
        (blendRegionRect cx cy rw rh W H).2.2.1 ≤ (W : ℤ) ∧
        0 ≤ (blendRegionRect cx cy rw rh W H).2.1 ∧
        (blendRegionRect cx cy rw rh W H).2.1 ≤ (blendRegionRect cx cy rw rh W H).2.2.2 ∧
        (blendRegionRect cx cy rw rh W H).2.2.2 ≤ (H : ℤ)) := by
  unfold _calculate_blend_region_from_wall at heq
  simp only [Prod.mk.injEq] at heq
  obtain ⟨hcx, hcy, hrw, hrh⟩ := heq
  have hfloor : pyInt ((padding : ℚ) * 3) = ((padding * 3 : ℕ) : ℤ) := pyInt_nat_mul padding 3
  have hrw3 : (padding : ℤ) * 3 ≤ rw := by
    rw [← hrw, hfloor]
    calc (padding : ℤ) * 3 = ((padding * 3 : ℕ) : ℤ) := by push_cast; ring
      _ ≤ _ := le_max_right _ _
  have hrh3 : (padding : ℤ) * 3 ≤ rh := by
    rw [← hrh, hfloor]
    calc (padding : ℤ) * 3 = ((padding * 3 : ℕ) : ℤ) := by push_cast; ring
      _ ≤ _ := le_max_right _ _
  have hcxb : 0 ≤ cx ∧ cx ≤ (W : ℤ) := by
    rw [← hcx]
    have hmem := convex_between hsx1 hsx2 hex1 hex2 hp0 hp1
    have := mapped_center_bounds (W := W) hvw hmem.1 hmem.2
    exact_mod_cast this
  have hcyb : 0 ≤ cy ∧ cy ≤ (H : ℤ) := by
    rw [← hcy]
    have hmem := convex_between hsy1 hsy2 hey1 hey2 hp0 hp1
    have := mapped_center_bounds (W := H) hvh hmem.1 hmem.2
    exact_mod_cast this
  have hdw : 0 ≤ Int.fdiv rw 2 := Int.fdiv_nonneg (by omega) (by omega)
  have hdh : 0 ≤ Int.fdiv rh 2 := Int.fdiv_nonneg (by omega) (by omega)
  refine ⟨⟨hrw3, hrh3⟩, ?_⟩
  unfold blendRegionRect
  dsimp only
  obtain ⟨hcx1, hcx2⟩ := hcxb
  obtain ⟨hcy1, hcy2⟩ := hcyb
  omega

/-- Witness for the amended C6 theorem: a mid-wall opening in a 400x400
image yields region (200, 0, 172, 200), honoring the floor, and a clamped
rectangle inside the image. -/
theorem c6_region_floor_witness :
    ((50 : ℤ) * 3 ≤ 172 ∧ (50 : ℤ) * 3 ≤ 200) ∧
      (0 ≤ (blendRegionRect 200 0 172 200 400 400).1 ∧
        (blendRegionRect 200 0 172 200 400 400).1 ≤
          (blendRegionRect 200 0 172 200 400 400).2.2.1 ∧
        (blendRegionRect 200 0 172 200 400 400).2.2.1 ≤ (400 : ℤ) ∧
        0 ≤ (blendRegionRect 200 0 172 200 400 400).2.1 ∧
        (blendRegionRect 200 0 172 200 400 400).2.1 ≤
          (blendRegionRect 200 0 172 200 400 400).2.2.2 ∧
        (blendRegionRect 200 0 172 200 400 400).2.2.2 ≤ (400 : ℤ)) :=
  c6_region_floor_and_clamped_bounds ⟨0, 0, 100, 0⟩ (1/2) 36 ⟨0, 0, 100, 100⟩
    400 400 50 200 0 172 200
    (by norm_num) (by norm_num)
    (by norm_num) (by norm_num) (by norm_num) (by norm_num)
    (by norm_num) (by norm_num) (by norm_num) (by norm_num)
    (by norm_num) (by norm_num)
    (by unfold _calculate_blend_region_from_wall pyInt; norm_num)

-- =========================================================================
-- SVG document model, room locator, surgical blend (surgical_blend.py)
-- =========================================================================

/-- A room polygon extracted from the SVG
(`_extract_room_polygons_from_svg`). -/
structure RoomPolygon where
  points : List (ℚ × ℚ)
  room_id : String

/-- The information the pipeline extracts from SVG text.  Textual SVG
parsing is out of scope (spec section 1, handled by regexes over the raw
markup); an SvgDoc carries the results: the parsed viewBox, when the
`viewBox="..."` attribute exists with four numeric parts, and the room
polygons with at least three points. -/
structure SvgDoc where
  viewBox : Option ViewBox
  rooms : List RoomPolygon

/-- Embedding of `_parse_viewbox(svg)` (surgical_blend.py lines 458-476)
over the pre-parsed document. -/
def _parse_viewbox (svg : SvgDoc) : Option ViewBox := svg.viewBox

/-- Embedding of `_point_in_polygon(x, y, polygon)` (surgical_blend.py
lines 111-127): ray-casting odd/even crossing test.  `j` trails `i` by
one position, starting at the last vertex. -/
def _point_in_polygon (x y : ℚ) (polygon : List (ℚ × ℚ)) : Bool :=
  let n := polygon.length
  (List.range n).foldl
    (fun inside i =>
      let pi := polygon.getD i (0, 0)
      let pj := polygon.getD ((i + n - 1) % n) (0, 0)
      if (decide (pi.2 > y) ≠ decide (pj.2 > y)) ∧
          x < (pj.1 - pi.1) * (y - pi.2) / (pj.2 - pi.2) + pi.1 then
        !inside
      else inside)
    false

/-- Embedding of `_find_room_containing_point(rooms, x, y)`
(surgical_blend.py lines 96-108). -/
def _find_room_containing_point (rooms : List RoomPolygon) (x y : ℚ) :
    Option RoomPolygon :=
  rooms.find? (fun room => _point_in_polygon x y room.points)

/-- Embedding of `_polygon_to_png_coords(polygon_points, viewbox,
png_width, png_height)` (surgical_blend.py lines 130-153). -/
def _polygon_to_png_coords (points : List (ℚ × ℚ)) (vb : ViewBox)
    (png_width png_height : ℕ) : List (ℤ × ℤ) :=
  points.map (fun p =>
    (pyInt ((p.1 - vb.x) * ((png_width : ℚ) / vb.width)),
      pyInt ((p.2 - vb.y) * ((png_height : ℚ) / vb.height))))

/-- Opening fields the blend and annotation paths consume (the `opening`
dict: `position_on_wall`, `width_inches`, optional `wall_coords`). -/
structure OpeningPlacement where
  position_on_wall : ℚ
  width_inches : ℚ
  wall_coords : Option WallCoords

/-- PIL raster primitives used by `surgical_blend`; they are external
library calls (Image.resize, ImageDraw.polygon + MaxFilter + GaussianBlur
inside `_create_room_mask`, ImageDraw.rectangle + GaussianBlur inside
`_create_feathered_mask`, Image.composite) and appear as collaborator
parameters. -/
structure PilOps where
  resize : Img → ℕ → ℕ → Img
  roomMask : ℕ → ℕ → List (ℤ × ℤ) → ℕ → ℕ → Img
  featheredMask : ℕ → ℕ → ℤ → ℤ → ℤ → ℤ → ℕ → Img
  compositeMask : Img → Img → Img → Img

/-- Embedding of `surgical_blend(original_image, new_image, opening,
modified_svg, padding_px, feather_radius, job_id)` (surgical_blend.py
lines 195-343).  When no viewBox can be parsed from the SVG the function
returns the new image unchanged (`return new_image`, lines 238-241) — the
raw bytes, not even resized.  Otherwise it composites the (resized) new
image over the original under a room-polygon mask, or under a rectangular
feathered mask when no room contains the opening center. -/
def surgical_blend (pil : PilOps) (original_image new_image : Img)
    (opening : OpeningPlacement) (modified_svg : SvgDoc)
    (padding_px feather_radius : ℕ) : Img :=
  let width := original_image.width
  let height := original_image.height
  let new2 :=
    if new_image.width = width ∧ new_image.height = height then new_image
    else pil.resize new_image width height
  match _parse_viewbox modified_svg with
  | none => new_image
  | some vb =>
    let svg_center : ℚ × ℚ :=
      match opening.wall_coords with
      | some wc =>
        (wc.start_x + (wc.end_x - wc.start_x) * opening.position_on_wall,
          wc.start_y + (wc.end_y - wc.start_y) * opening.position_on_wall)
      | none => (vb.x + vb.width / 2, vb.y + vb.height / 2)
    let mask :=
      match _find_room_containing_point modified_svg.rooms svg_center.1 svg_center.2 with
      | some target_room =>
        pil.roomMask width height
          (_polygon_to_png_coords target_room.points vb width height)
          padding_px feather_radius
      | none =>
        let region : ℤ × ℤ × ℤ × ℤ :=
          match opening.wall_coords with
          | some wc =>
            _calculate_blend_region_from_wall wc opening.position_on_wall
              opening.width_inches vb width height padding_px
          | none =>
            ((width : ℤ) / 2, (height : ℤ) / 2,
              (padding_px : ℤ) * 4, (padding_px : ℤ) * 4)
        let rect := blendRegionRect region.1 region.2.1 region.2.2.1 region.2.2.2
          width height
        pil.featheredMask width height rect.1 rect.2.1 rect.2.2.1 rect.2.2.2
          feather_radius
    pil.compositeMask new2 original_image mask

-- =========================================================================
-- Annotation entry point (surgical_blend.py, annotate_png_for_opening_edit)
-- =========================================================================

/-- The two explicit error metadata values `annotate_png_for_opening_edit`
can return (surgical_blend.py lines 746-754). -/
inductive AnnotateFailure where
  | noViewBox
  | noWallCoords
deriving DecidableEq

/-- Outcome of the annotation step as the job controller sees it: an
error metadata dict, an uncaught exception (the ZeroDivisionError raised
at `scale_x = width / vb_width` for a zero-extent viewBox, line 769), or
the annotated image. -/
inductive AnnotateResult where
  | errorMeta (reason : AnnotateFailure)
  | raisedException
  | annotated (image : Img)

/-- Embedding of `annotate_png_for_opening_edit(original_png, opening,
svg, boundary_padding_px, job_id)` (surgical_blend.py lines 713-863):
fail with error metadata when the SVG has no parseable viewBox (line 748)
or the opening has no wall coordinates (line 754); raise on a zero-extent
viewBox (the division at lines 769-770); otherwise draw the BLUE opening
box on a copy of the image.  The direction/corner math uses `math.sqrt`
(real-valued, line 793) and PIL line drawing, both folded into the
`drawBlueBox` collaborator; the marker color it draws is
`annotatorMarkerBLUE`. -/
def annotate_png_for_opening_edit (drawBlueBox : Img → Pixel → Img)
    (original_png : Img) (opening : OpeningPlacement) (svg : SvgDoc) :
    AnnotateResult :=
  match _parse_viewbox svg with
  | none => .errorMeta .noViewBox
  | some vb =>
    match opening.wall_coords with
    | none => .errorMeta .noWallCoords
    | some _ =>
      if vb.width = 0 ∨ vb.height = 0 then .raisedException
      else .annotated (drawBlueBox original_png annotatorMarkerBLUE)

-- =========================================================================
-- Job controller (drafted_routes.py, add_opening / _process_opening_render)
-- =========================================================================

/-- MAX_VALIDATION_RETRIES = 3 (drafted_routes.py line 1090). -/
def MAX_VALIDATION_RETRIES : ℕ := 3

/-- Result of one call to the external generator collaborator
`edit_floor_plan_with_opening` (drafted_routes.py line 1102): a
successful call carries the edited image; a call-level failure
(network/auth/timeout, `edit_result.success == False`) carries the
optional error message. -/
inductive GenResult where
  | ok (edited_image : Img)
  | callError (error : Option String)

/-- The validation verdict fields the controller consumes
(`ValidationResult`, validate_generation.py lines 74-109). -/
structure ValidationVerdict where
  is_valid : Bool
  rejection_reason : Option String
  failed_check : Option String

/-- One entry of `rejected_generations` (drafted_routes.py lines
1147-1153). -/
structure RejectedGen where
  attempt : ℕ
  reason : Option String
  failed_check : Option String
  image : Img

/-- Structured rendering of the strings assigned to `job["error"]`. -/
inductive JobError where
  | annotationFailed (reason : AnnotateFailure)
  | geminiCallFailed (message : Option String)
  | validationExhausted (retries : ℕ) (reason : Option String)
  | pythonException
deriving DecidableEq

/-- The job states the code assigns to `job["status"]`: "pending",
"rendering", "complete", "failed" (a "blending" status never occurs in
drafted_routes.py). -/
inductive JobStatus where
  | pending
  | rendering
  | complete
  | failed
deriving DecidableEq

/-- The job record fields governing the status snapshot
(drafted_routes.py lines 876-897 create them; `get_opening_status` reads
them at lines 946-954). -/
structure JobRecord where
  status : JobStatus
  rendered_image : Option Img
  error : Option JobError
  rejected_generations : List RejectedGen

/-- The job record as created by `add_opening` (drafted_routes.py lines
876-897): status "pending", no rendered image, no error, no rejected
generations. -/
def initialJobRecord : JobRecord := ⟨.pending, none, none, []⟩

/-- How the retry loop exited. -/
inductive LoopExit where
  | apiFailed (error : Option String)
  | exhausted (last : ValidationVerdict)
  | accepted (image : Img)
  | noCalls

/-- Outcome of the retry loop: exit kind, recorded rejections, and the
number of generator calls made. -/
structure LoopResult where
  exit : LoopExit
  rejected : List RejectedGen
  callsMade : ℕ

/-- Embedding of the validation retry loop of `_process_opening_render`
(drafted_routes.py lines 1090-1171).  `gen i` is the result of the
(i+1)-th generator call; `validate` is `validate_generation` applied to
the fixed original and bbox.  Per iteration: a call-level failure ends
the job at once (lines 1114-1119); with a bbox present, a passing verdict
breaks out of the loop (line 1142) and a rejection is recorded and the
loop continues (lines 1147-1159); without a bbox the first successful
call is accepted unvalidated (lines 1160-1163).  When the loop exhausts
its iterations the last verdict decides between exhaustion and
acceptance (lines 1166-1171). -/
def runValidationLoop (gen : ℕ → GenResult) (validate : Img → ValidationVerdict)
    (bboxOpt : Option Bbox) :
    ℕ → ℕ → List RejectedGen → Option (ValidationVerdict × Img) → LoopResult
  | attemptIdx, 0, rejected, last =>
    match last with
    | some (v, img) =>
      if v.is_valid then ⟨.accepted img, rejected, attemptIdx⟩
      else ⟨.exhausted v, rejected, attemptIdx⟩
    | none => ⟨.noCalls, rejected, attemptIdx⟩
  | attemptIdx, fuel + 1, rejected, _ =>
    match gen attemptIdx with
    | .callError e => ⟨.apiFailed e, rejected, attemptIdx + 1⟩
    | .ok img =>
      match bboxOpt with
      | some _ =>
        let v := validate img
        if v.is_valid then ⟨.accepted img, rejected, attemptIdx + 1⟩
        else
          runValidationLoop gen validate bboxOpt (attemptIdx + 1) fuel
            (rejected ++ [⟨attemptIdx + 1, v.rejection_reason, v.failed_check, img⟩])
            (some (v, img))
      | none => ⟨.accepted img, rejected, attemptIdx + 1⟩

/-- Final job record assembled from the loop outcome
(drafted_routes.py lines 1114-1119, 1166-1171, 1179-1206): a call failure
or exhausted retries set status "failed" with the corresponding error and
no rendered image; an accepted image is composited through
`composite_only_bbox` when a bbox is present (lines 1182-1189), else used
raw (line 1194), and the job completes with it (lines 1203-1204). -/
def finalizeLoop (original : Img) (bboxOpt : Option Bbox) (r : LoopResult) :
    JobRecord :=
  match r.exit with
  | .apiFailed e => ⟨.failed, none, some (.geminiCallFailed e), r.rejected⟩
  | .exhausted v =>
    ⟨.failed, none,
      some (.validationExhausted MAX_VALIDATION_RETRIES v.rejection_reason), r.rejected⟩
  | .accepted img =>
    match bboxOpt with
    | some b => ⟨.complete, some (composite_only_bbox original img b), none, r.rejected⟩
    | none => ⟨.complete, some img, none, r.rejected⟩
  | .noCalls => ⟨.failed, none, some .pythonException, r.rejected⟩

/-- The full retry loop as the controller runs it: attempt index 0, fuel
MAX_VALIDATION_RETRIES, no rejections, no verdict yet. -/
def processLoop (gen : ℕ → GenResult) (validate : Img → ValidationVerdict)
    (bboxOpt : Option Bbox) : LoopResult :=
  runValidationLoop gen validate bboxOpt 0 MAX_VALIDATION_RETRIES [] none

/-- How `_process_opening_render` reacts to the annotation step
(drafted_routes.py lines 1054-1065 and the enclosing try/except at lines
1210-1215): an error metadata dict fails the job with an annotation
error; an uncaught exception fails it through the except block; a
successful annotation leaves the record unchanged and rendering
continues. -/
def processAnnotateStep (j : JobRecord) (res : AnnotateResult) : JobRecord :=
  match res with
  | .errorMeta r => { j with status := .failed, error := some (.annotationFailed r) }
  | .raisedException => { j with status := .failed, error := some .pythonException }
  | .annotated _ => j

-- =========================================================================
-- Submission endpoint (drafted_routes.py, add_opening)
-- =========================================================================

/-- The request fields `add_opening` consumes (schemas at
drafted_routes.py lines 57-91); SVG texts appear as pre-parsed
documents. -/
structure AddOpeningRequest where
  plan_id : String
  svg : SvgDoc
  cropped_svg : Option SvgDoc
  rendered_image : Img
  opening : OpeningPlacement

/-- HTTP errors raised synchronously by the endpoint. -/
inductive HttpError where
  | badRequest (detail : String)
  | notFound (detail : String)
  | internalError
deriving DecidableEq

/-- The response of `add_opening` (OpeningJobResponse, drafted_routes.py
lines 94-102), restricted to the fields the claims concern. -/
structure OpeningJobResponse where
  success : Bool
  job_id : String
  status : JobStatus

/-- Embedding of the synchronous part of `add_opening(request)`
(drafted_routes.py lines 807-921): the only geometry checked
synchronously is the presence of a viewBox attribute in `request.svg`
(lines 833-835, HTTP 400 when missing); otherwise the job record is
created in "pending", the background task is spawned, and the response
returns immediately (lines 876-913).  Wall coordinates are NOT examined
here: they are copied into the job verbatim, optional (line 853-858). -/
def add_opening (job_id : String) (req : AddOpeningRequest) :
    Except HttpError (OpeningJobResponse × JobRecord) :=
  match req.svg.viewBox with
  | none => .error (.badRequest "SVG missing viewBox attribute")
  | some _ =>
    .ok ({ success := true, job_id := job_id, status := .pending }, initialJobRecord)

/-- The SVG used for coordinates by the background task:
`job.get("cropped_svg") or job.get("original_svg", ...)`
(drafted_routes.py line 1049). -/
def svgForCoords (req : AddOpeningRequest) : SvgDoc :=
  req.cropped_svg.getD req.svg

-- =========================================================================
-- C3 and C4: retry loop semantics
-- =========================================================================

/-- C3: with a bbox present and all generator calls succeeding, a
validator that rejects the first two outputs and passes the third drives
the job to Complete with exactly 2 recorded rejected attempts and a
non-null final image; a validator that rejects all three outputs drives
the job to Failed after exactly MAX_RETRIES calls with the last
rejection's reason as its error; a first-call pass exits the loop after a
single generator call. -/
theorem c3_retry_loop_semantics (gen : ℕ → GenResult)
    (validate : Img → ValidationVerdict) (b : Bbox) (original : Img)
    (img0 img1 img2 : Img)
    (hg0 : gen 0 = .ok img0) (hg1 : gen 1 = .ok img1) (hg2 : gen 2 = .ok img2) :
    ((validate img0).is_valid = false → (validate img1).is_valid = false →
      (validate img2).is_valid = true →
      (finalizeLoop original (some b) (processLoop gen validate (some b))).status = .complete ∧
      (finalizeLoop original (some b)
        (processLoop gen validate (some b))).rejected_generations.length = 2 ∧
      (finalizeLoop original (some b)
        (processLoop gen validate (some b))).rendered_image ≠ none) ∧
    ((validate img0).is_valid = false → (validate img1).is_valid = false →
      (validate img2).is_valid = false →
      (finalizeLoop original (some b) (processLoop gen validate (some b))).status = .failed ∧
      (processLoop gen validate (some b)).callsMade = MAX_VALIDATION_RETRIES ∧
      (finalizeLoop original (some b) (processLoop gen validate (some b))).error =
        some (.validationExhausted MAX_VALIDATION_RETRIES
          (validate img2).rejection_reason)) ∧
    ((validate img0).is_valid = true →
      (processLoop gen validate (some b)).callsMade = 1 ∧
      (finalizeLoop original (some b)
        (processLoop gen validate (some b))).status = .complete) := by
  refine ⟨?_, ?_, ?_⟩
  · intro h0 h1 h2
    simp [processLoop, MAX_VALIDATION_RETRIES, runValidationLoop, finalizeLoop,
      hg0, hg1, hg2, h0, h1, h2]
  · intro h0 h1 h2
    simp [processLoop, MAX_VALIDATION_RETRIES, runValidationLoop, finalizeLoop,
      hg0, hg1, hg2, h0, h1, h2]
  · intro h0
    simp [processLoop, MAX_VALIDATION_RETRIES, runValidationLoop, finalizeLoop,
      hg0, h0]

/-- A two-rejections-then-pass generator/validator stub pair: the i-th
call returns a solid image with red channel i, and only red channel 2
passes validation. -/
def c3genImg (i : ℕ) : Img := ⟨1, 1, fun _ _ => (i, 0, 0)⟩

/-- Stub generator: every call succeeds. -/
def c3gen (i : ℕ) : GenResult := .ok (c3genImg i)

/-- Stub validator: passes exactly the image with red channel 2. -/
def c3validate (img : Img) : ValidationVerdict :=
  if (img.pix 0 0).1 = 2 then ⟨true, none, none⟩
  else ⟨false, some "rejected", some "artifact_leakage"⟩

/-- A 1x1 original for the stub run. -/
def c3original : Img := ⟨1, 1, fun _ _ => (255, 255, 255)⟩

/-- A bbox for the stub run. -/
def c3bbox : Bbox := ⟨0, 0, 1, 1⟩

/-- Witness for C3: with the stub failing twice then passing, the job
completes with exactly 2 rejected attempts and a non-null final image. -/
theorem c3_retry_loop_witness :
    (finalizeLoop c3original (some c3bbox)
      (processLoop c3gen c3validate (some c3bbox))).status = .complete ∧
    (finalizeLoop c3original (some c3bbox)
      (processLoop c3gen c3validate (some c3bbox))).rejected_generations.length = 2 ∧
    (finalizeLoop c3original (some c3bbox)
      (processLoop c3gen c3validate (some c3bbox))).rendered_image ≠ none :=
  (c3_retry_loop_semantics c3gen c3validate c3bbox c3original
    (c3genImg 0) (c3genImg 1) (c3genImg 2) rfl rfl rfl).1
    (by decide) (by decide) (by decide)

/-- C4: a call-level generator failure at attempt k (after k rejected
attempts) fails the job immediately with the call error, making exactly
k+1 generator calls regardless of the remaining retry budget; only
content rejections consume the budget. -/
theorem c4_call_failure_fatal (gen : ℕ → GenResult)
    (validate : Img → ValidationVerdict) (b : Bbox) (original : Img)
    (k : ℕ) (e : Option String) (imgs : ℕ → Img)
    (hk : k < MAX_VALIDATION_RETRIES)
    (hprev : ∀ j, j < k → gen j = .ok (imgs j) ∧ (validate (imgs j)).is_valid = false)
    (hcall : gen k = .callError e) :
    (finalizeLoop original (some b) (processLoop gen validate (some b))).status = .failed ∧
    (finalizeLoop original (some b) (processLoop gen validate (some b))).error =
      some (.geminiCallFailed e) ∧
    (processLoop gen validate (some b)).callsMade = k + 1 := by
  unfold MAX_VALIDATION_RETRIES at hk
  interval_cases k
  · simp [processLoop, MAX_VALIDATION_RETRIES, runValidationLoop, finalizeLoop, hcall]
  · have h0 := hprev 0 (by omega)
    simp [processLoop, MAX_VALIDATION_RETRIES, runValidationLoop, finalizeLoop,
      h0.1, h0.2, hcall]
  · have h0 := hprev 0 (by omega)
    have h1 := hprev 1 (by omega)
    simp [processLoop, MAX_VALIDATION_RETRIES, runValidationLoop, finalizeLoop,
      h0.1, h0.2, h1.1, h1.2, hcall]

/-- Stub generator for C4: first call succeeds (and is rejected), second
call fails at the call level. -/
def c4gen (i : ℕ) : GenResult :=
  if i = 0 then .ok (c3genImg 0) else .callError (some "network error")

/-- Witness for C4: with the stub, the job fails with the call error
after exactly 2 generator calls although one retry remained. -/
theorem c4_call_failure_witness :
    (finalizeLoop c3original (some c3bbox)
      (processLoop c4gen c3validate (some c3bbox))).status = .failed ∧
    (finalizeLoop c3original (some c3bbox)
      (processLoop c4gen c3validate (some c3bbox))).error =
      some (.geminiCallFailed (some "network error")) ∧
    (processLoop c4gen c3validate (some c3bbox)).callsMade = 1 + 1 :=
  c4_call_failure_fatal c4gen c3validate c3bbox c3original 1
    (some "network error") (fun _ => c3genImg 0) (by decide)
    (by
      intro j hj
      interval_cases j
      exact ⟨rfl, by decide⟩)
    rfl

-- =========================================================================
-- C8: snapshot invariant of the job state machine
-- =========================================================================

/-- One atomic mutation of the job record as observable by a status
reader.  asyncio interleaves coroutines only at await points, so the
statements between two awaits act atomically on the record; each
constructor corresponds to one such mutation site in drafted_routes.py:
status "rendering" (line 1010), annotation failure (lines 1063-1064),
recording a rejection (line 1154), call-level failure (lines 1117-1118),
exhausted retries (lines 1167-1168), completion (lines 1203-1204, no
await between the two assignments), and the except block (lines
1214-1215, reachable only while the try body is still rendering). -/
inductive JobStep : JobRecord → JobRecord → Prop where
  | startRendering (j : JobRecord) (h : j.status = .pending) :
      JobStep j { j with status := .rendering }
  | annotateFails (j : JobRecord) (r : AnnotateFailure) (h : j.status = .rendering) :
      JobStep j { j with status := .failed, error := some (.annotationFailed r) }
  | recordRejection (j : JobRecord) (rg : RejectedGen) (h : j.status = .rendering) :
      JobStep j { j with rejected_generations := j.rejected_generations ++ [rg] }
  | callFails (j : JobRecord) (e : Option String) (h : j.status = .rendering) :
      JobStep j { j with status := .failed, error := some (.geminiCallFailed e) }
  | retriesExhausted (j : JobRecord) (reason : Option String) (h : j.status = .rendering) :
      JobStep j { j with status := .failed, error := some (.validationExhausted MAX_VALIDATION_RETRIES reason) }
  | completes (j : JobRecord) (img : Img) (h : j.status = .rendering) :
      JobStep j { j with status := .complete, rendered_image := some img }
  | exceptionCaught (j : JobRecord) (h : j.status = .rendering) :
      JobStep j { j with status := .failed, error := some .pythonException }

/-- Job records observable for some job: the freshly created record and
everything reachable from it through the controller's mutations. -/
inductive ReachableJob : JobRecord → Prop where
  | init : ReachableJob initialJobRecord
  | step {j j' : JobRecord} : ReachableJob j → JobStep j j' → ReachableJob j'

/-- The full per-state snapshot invariant, strengthened for induction. -/
def JobInv (j : JobRecord) : Prop :=
  (j.status = .pending → j.rendered_image = none ∧ j.error = none) ∧
  (j.status = .rendering → j.rendered_image = none ∧ j.error = none) ∧
  (j.status = .complete → j.rendered_image ≠ none ∧ j.error = none) ∧
  (j.status = .failed → j.rendered_image = none ∧ j.error ≠ none)

/-- Every reachable job record satisfies the snapshot invariant. -/
lemma reachable_jobInv {j : JobRecord} (h : ReachableJob j) : JobInv j := by
  induction h with
  | init => simp [JobInv, initialJobRecord]
  | step hr hs ih =>
    obtain ⟨ip, ir, ic, ifl⟩ := ih
    cases hs with
    | startRendering h => exact ⟨by simp, fun _ => ip h, by simp, by simp⟩
    | annotateFails r h => exact ⟨by simp, by simp, by simp, fun _ => ⟨(ir h).1, by simp⟩⟩
    | recordRejection rg h =>
      exact ⟨fun hs => ip hs, fun hs => ir hs, fun hs => ic hs, fun hs => ifl hs⟩
    | callFails e h => exact ⟨by simp, by simp, by simp, fun _ => ⟨(ir h).1, by simp⟩⟩
    | retriesExhausted reason h =>
      exact ⟨by simp, by simp, by simp, fun _ => ⟨(ir h).1, by simp⟩⟩
    | completes img h => exact ⟨by simp, by simp, fun _ => ⟨by simp, (ir h).2⟩, by simp⟩
    | exceptionCaught h => exact ⟨by simp, by simp, by simp, fun _ => ⟨(ir h).1, by simp⟩⟩

/-- C8: every status snapshot a reader can observe of a reachable job
satisfies: Complete implies a non-null final image and a null error, and
Failed implies a null final image and a non-null error; in particular a
reader never observes Complete with a null final image. -/
theorem c8_snapshot_invariant (j : JobRecord) (h : ReachableJob j) :
    (j.status = .complete → j.rendered_image ≠ none ∧ j.error = none) ∧
    (j.status = .failed → j.rendered_image = none ∧ j.error ≠ none) := by
  have hi := reachable_jobInv h
  exact ⟨hi.2.2.1, hi.2.2.2⟩

/-- A 1x1 final image for the C8 witness. -/
def c8img : Img := ⟨1, 1, fun _ _ => (0, 0, 0)⟩

/-- The completed record reached by rendering then completing. -/
def c8completedRec : JobRecord := ⟨.complete, some c8img, none, []⟩

/-- Witness for C8: the completed record reached through the machine
satisfies the snapshot invariant. -/
theorem c8_snapshot_invariant_witness :
    (c8completedRec.status = .complete →
      c8completedRec.rendered_image ≠ none ∧ c8completedRec.error = none) ∧
    (c8completedRec.status = .failed →
      c8completedRec.rendered_image = none ∧ c8completedRec.error ≠ none) :=
  c8_snapshot_invariant c8completedRec
    (ReachableJob.step
      (ReachableJob.step ReachableJob.init (JobStep.startRendering _ rfl))
      (JobStep.completes _ c8img rfl))

/-- Model adequacy: a rendering record carrying any list of recorded
rejections is reachable. -/
lemma rendering_reachable (l : List RejectedGen) :
    ReachableJob ⟨.rendering, none, none, l⟩ := by
  induction l using List.reverseRecOn with
  | nil => exact .step .init (.startRendering _ rfl)
  | append_singleton l rg ih => exact .step ih (.recordRejection _ rg rfl)

/-- Model adequacy: every record `finalizeLoop` can produce is reachable
in the snapshot machine. -/
lemma finalizeLoop_reachable (original : Img) (bboxOpt : Option Bbox)
    (r : LoopResult) : ReachableJob (finalizeLoop original bboxOpt r) := by
  cases r with
  | mk exit rejected callsMade =>
    cases exit with
    | apiFailed e =>
      exact .step (rendering_reachable rejected) (.callFails _ e rfl)
    | exhausted v =>
      exact .step (rendering_reachable rejected) (.retriesExhausted _ v.rejection_reason rfl)
    | accepted img =>
      cases bboxOpt with
      | some b =>
        exact .step (rendering_reachable rejected)
          (.completes _ (composite_only_bbox original img b) rfl)
      | none => exact .step (rendering_reachable rejected) (.completes _ img rfl)
    | noCalls =>
      exact .step (rendering_reachable rejected) (.exceptionCaught _ rfl)

-- =========================================================================
-- C5: synchronous vs. asynchronous geometry failures
-- =========================================================================

/-- C5 (amended): the only malformed input `add_opening` rejects
synchronously is an SVG without a parseable viewBox (HTTP 400, no job
created); every request with a viewBox returns a job id immediately in
Pending — including requests with missing wall endpoints or a zero-extent
viewBox, whose jobs transition to Failed asynchronously during the
annotation step. -/
theorem c5_submit_sync_and_async_failures (job_id : String)
    (req : AddOpeningRequest) (drawBlueBox : Img → Pixel → Img) :
    (req.svg.viewBox = none →
      add_opening job_id req = .error (.badRequest "SVG missing viewBox attribute")) ∧
    (∀ vb, req.svg.viewBox = some vb →
      add_opening job_id req =
        .ok ({ success := true, job_id := job_id, status := .pending },
          initialJobRecord)) ∧
    (req.opening.wall_coords = none → ∀ vb, (svgForCoords req).viewBox = some vb →
      (processAnnotateStep { initialJobRecord with status := .rendering }
        (annotate_png_for_opening_edit drawBlueBox req.rendered_image req.opening
          (svgForCoords req))).status = .failed ∧
      (processAnnotateStep { initialJobRecord with status := .rendering }
        (annotate_png_for_opening_edit drawBlueBox req.rendered_image req.opening
          (svgForCoords req))).error = some (.annotationFailed .noWallCoords)) ∧
    (∀ wc vb, req.opening.wall_coords = some wc →
      (svgForCoords req).viewBox = some vb → vb.width = 0 ∨ vb.height = 0 →
      (processAnnotateStep { initialJobRecord with status := .rendering }
        (annotate_png_for_opening_edit drawBlueBox req.rendered_image req.opening
          (svgForCoords req))).status = .failed) := by
  refine ⟨?_, ?_, ?_, ?_⟩
  · intro h
    simp [add_opening, h]
  · intro vb h
    simp [add_opening, h]
  · intro hwc vb hvb
    simp [annotate_png_for_opening_edit, _parse_viewbox, hvb, hwc, processAnnotateStep]
  · intro wc vb hwc hvb hzero
    simp [annotate_png_for_opening_edit, _parse_viewbox, hvb, hwc, hzero,
      processAnnotateStep]

/-- A plain white image for the C5 inputs. -/
def c5white : Img := ⟨4, 4, fun _ _ => (255, 255, 255)⟩

/-- A request with a valid viewBox but no wall coordinates: malformed
geometry in the claim's sense. -/
def c5req : AddOpeningRequest :=
  { plan_id := "plan-1"
    svg := ⟨some ⟨0, 0, 100, 100⟩, []⟩
    cropped_svg := none
    rendered_image := c5white
    opening := { position_on_wall := 1/2, width_inches := 36, wall_coords := none } }

/-- C5 counterexample: a request with missing wall endpoints (malformed
geometry) does NOT fail synchronously — `add_opening` creates the job and
returns it in Pending. -/
theorem c5_missing_wall_not_sync_failure :
    c5req.opening.wall_coords = none ∧
      add_opening "job-1" c5req =
        .ok ({ success := true, job_id := "job-1", status := .pending },
          initialJobRecord) :=
  ⟨rfl, rfl⟩

/-- Witness for the amended C5 theorem: the missing-wall request is
accepted in Pending and its annotation step fails the job
asynchronously. -/
theorem c5_submit_witness :
    add_opening "job-1" c5req =
      .ok ({ success := true, job_id := "job-1", status := .pending },
        initialJobRecord) ∧
    (processAnnotateStep { initialJobRecord with status := .rendering }
      (annotate_png_for_opening_edit (fun i _ => i) c5req.rendered_image
        c5req.opening (svgForCoords c5req))).status = .failed :=
  ⟨(c5_submit_sync_and_async_failures "job-1" c5req (fun i _ => i)).2.1
      ⟨0, 0, 100, 100⟩ rfl,
    ((c5_submit_sync_and_async_failures "job-1" c5req (fun i _ => i)).2.2.1
      rfl ⟨0, 0, 100, 100⟩ rfl).1⟩

-- =========================================================================
-- C10: surgical_blend with an unparseable viewBox
-- =========================================================================

/-- C10: when no viewBox can be parsed from the SVG, `surgical_blend`
returns the new image unchanged — no resize, no mask, the entire
candidate replaces the original, so every pixel of the result may differ
from the original; this holds for any PIL collaborator behavior. -/
theorem c10_surgical_blend_fallback (pil : PilOps) (original_image new_image : Img)
    (opening : OpeningPlacement) (svg : SvgDoc) (padding feather : ℕ)
    (h : _parse_viewbox svg = none) :
    surgical_blend pil original_image new_image opening svg padding feather =
      new_image := by
  unfold surgical_blend
  rw [h]

/-- An SVG document with no parseable viewBox. -/
def c10svg : SvgDoc := ⟨none, []⟩

/-- A 2x2 original for the C10 witness. -/
def c10original : Img := ⟨2, 2, fun _ _ => (1, 2, 3)⟩

/-- A 2x2 candidate differing from the original at every pixel. -/
def c10new : Img := ⟨2, 2, fun _ _ => (200, 201, 202)⟩

/-- A trivial PIL collaborator bundle for the C10 witness. -/
def c10pil : PilOps :=
  ⟨fun i _ _ => i,
    fun w h _ _ _ => ⟨w, h, fun _ _ => (0, 0, 0)⟩,
    fun w h _ _ _ _ _ => ⟨w, h, fun _ _ => (0, 0, 0)⟩,
    fun n _ _ => n⟩

/-- An opening for the C10 witness. -/
def c10opening : OpeningPlacement := ⟨1/2, 36, none⟩

/-- Witness for C10: on the concrete viewBox-less SVG, surgical_blend
returns the candidate unchanged. -/
theorem c10_surgical_blend_fallback_witness :
    _parse_viewbox c10svg = none ∧
      surgical_blend c10pil c10original c10new c10opening c10svg 50 20 = c10new :=
  ⟨rfl, c10_surgical_blend_fallback c10pil c10original c10new c10opening
    c10svg 50 20 rfl⟩

end Drafted
